import Mathlib

/-!
Verification of the StoryGrinder streaming orchestration core.

The definitions below are a shallow embedding of the JavaScript sources:
* `client-claude.js` — the Claude provider client (`calculateTokenBudgets`,
  the pre-stream phase of `streamWithThinking`);
* `client-openai.js` — the OpenAI provider client (pre-stream phase of
  `streamWithThinking`);
* `main.js` — the `start-tool-run` IPC handler and the set of IPC channels
  registered by the main process;
* `preload.js` — the renderer-facing bridge (`stopTool`);
* the artifact file cache (`file-cache.js`), modelled from the spec where
  noted, since that file is not among the provided sources.

Token quantities are modelled as `Int`, matching JavaScript number
arithmetic on the integer values involved (no overflow at these sizes).
-/

deriving instance DecidableEq for Except

namespace StoryGrinder

/-- Configuration of the Claude client, `client-claude.js` constructor.
The field values of `defaultClaudeConfig` are the constructor defaults. -/
structure ClaudeConfig where
  model_name : String
  context_window : Int
  thinking_budget_tokens : Int
  betas_max_tokens : Int
  desired_output_tokens : Int
  max_thinking_budget : Int
  max_tokens : Int
deriving Repr, DecidableEq

/-- The constructor defaults of `client-claude.js` (lines 14–27). -/
def defaultClaudeConfig : ClaudeConfig :=
  { model_name := "claude-3-7-sonnet-20250219"
    context_window := 200000
    thinking_budget_tokens := 32000
    betas_max_tokens := 128000
    desired_output_tokens := 8000
    max_thinking_budget := 20000
    max_tokens := 32000 }

/-- The record returned by `calculateTokenBudgets` (client-claude.js 342–353). -/
structure TokenBudgets where
  contextWindow : Int
  promptTokens : Int
  availableTokens : Int
  maxTokens : Int
  thinkingBudget : Int
  desiredOutputTokens : Int
  betasMaxTokens : Int
  configuredThinkingBudget : Int
  capThinkingBudget : Bool
  isPromptTooLarge : Bool
deriving Repr, DecidableEq

/-- Shallow embedding of `calculateTokenBudgets` (client-claude.js 314–354).
`availableTokens = contextWindow - promptTokens`;
`maxTokens = min availableTokens betasMaxTokens`, replaced by
`availableTokens` if it exceeds the context window;
`thinkingBudget = maxTokens - desiredOutputTokens`, capped above at
`maxThinkingBudget`; `isPromptTooLarge` compares the thinking budget with the
configured thinking budget. -/
def calculateTokenBudgets (cfg : ClaudeConfig) (promptTokens : Int) : TokenBudgets :=
  let contextWindow := cfg.context_window
  let desiredOutputTokens := cfg.desired_output_tokens
  let configuredThinkingBudget := cfg.thinking_budget_tokens
  let betasMaxTokens := cfg.betas_max_tokens
  let maxThinkingBudget := cfg.max_thinking_budget
  let availableTokens := contextWindow - promptTokens
  let maxTokens0 := min availableTokens betasMaxTokens
  let maxTokens := if maxTokens0 > contextWindow then availableTokens else maxTokens0
  let thinkingBudget0 := maxTokens - desiredOutputTokens
  let capThinkingBudget := thinkingBudget0 > maxThinkingBudget
  let thinkingBudget := if capThinkingBudget then maxThinkingBudget else thinkingBudget0
  let isPromptTooLarge := thinkingBudget < configuredThinkingBudget
  { contextWindow := contextWindow
    promptTokens := promptTokens
    availableTokens := availableTokens
    maxTokens := maxTokens
    thinkingBudget := thinkingBudget
    desiredOutputTokens := desiredOutputTokens
    betasMaxTokens := betasMaxTokens
    configuredThinkingBudget := configuredThinkingBudget
    capThinkingBudget := decide capThinkingBudget
    isPromptTooLarge := decide isPromptTooLarge }

theorem availableTokens_eq (cfg : ClaudeConfig) (pt : Int) :
    (calculateTokenBudgets cfg pt).availableTokens = cfg.context_window - pt := rfl

theorem maxTokens_eq (cfg : ClaudeConfig) (pt : Int) :
    (calculateTokenBudgets cfg pt).maxTokens =
      if min (cfg.context_window - pt) cfg.betas_max_tokens > cfg.context_window
      then cfg.context_window - pt
      else min (cfg.context_window - pt) cfg.betas_max_tokens := rfl

theorem thinkingBudget_eq (cfg : ClaudeConfig) (pt : Int) :
    (calculateTokenBudgets cfg pt).thinkingBudget =
      if (calculateTokenBudgets cfg pt).maxTokens - cfg.desired_output_tokens >
          cfg.max_thinking_budget
      then cfg.max_thinking_budget
      else (calculateTokenBudgets cfg pt).maxTokens - cfg.desired_output_tokens := rfl

theorem isPromptTooLarge_eq (cfg : ClaudeConfig) (pt : Int) :
    (calculateTokenBudgets cfg pt).isPromptTooLarge =
      decide ((calculateTokenBudgets cfg pt).thinkingBudget < cfg.thinking_budget_tokens) := rfl

/-- Claim C3, counterexample: at `prompt_tokens = 210000` with the default
configuration (`context_window = 200000`), `calculateTokenBudgets` returns
`availableTokens = -10000`, a negative value — it is not clamped to 0 as the
claim states. -/
theorem c3_counterexample_available_negative :
    (calculateTokenBudgets defaultClaudeConfig 210000).availableTokens = -10000 ∧
    (calculateTokenBudgets defaultClaudeConfig 210000).availableTokens < 0 := by
  decide

/-- Claim C3 (amended): for every `prompt_tokens` greater than the context
window (default configuration), `calculateTokenBudgets` returns
`availableTokens = context_window - prompt_tokens`, which is negative — no
clamping to 0 — and `isPromptTooLarge = true`. -/
theorem c3_available_not_clamped_but_flagged (pt : Int)
    (h : (200000 : Int) < pt) :
    (calculateTokenBudgets defaultClaudeConfig pt).availableTokens = 200000 - pt ∧
    (calculateTokenBudgets defaultClaudeConfig pt).availableTokens < 0 ∧
    (calculateTokenBudgets defaultClaudeConfig pt).isPromptTooLarge = true := by
  refine ⟨?_, ?_, ?_⟩
  · simp [availableTokens_eq, defaultClaudeConfig]
  · simp only [availableTokens_eq, defaultClaudeConfig]
    omega
  · simp only [isPromptTooLarge_eq, thinkingBudget_eq, maxTokens_eq, defaultClaudeConfig,
      decide_eq_true_eq]
    split <;> split <;> omega

/-- Witness for C3 (amended) at the concrete prompt size 210000. -/
theorem c3_available_not_clamped_but_flagged_witness :
    (200000 : Int) < 210000 ∧
    ((calculateTokenBudgets defaultClaudeConfig 210000).availableTokens = 200000 - 210000 ∧
     (calculateTokenBudgets defaultClaudeConfig 210000).availableTokens < 0 ∧
     (calculateTokenBudgets defaultClaudeConfig 210000).isPromptTooLarge = true) :=
  ⟨by decide, c3_available_not_clamped_but_flagged 210000 (by decide)⟩

/-- Claim C5: for every `prompt_tokens ≤ context_window` (default
configuration), `calculateTokenBudgets` returns `maxTokens ≥ 0`,
`thinkingBudget < maxTokens` (this client supports reasoning), and
`maxTokens ≤ min availableTokens betas_max_tokens`, where `betas_max_tokens`
is the provider hard limit used by the calculator. -/
theorem c5_budget_invariants (pt : Int) (h : pt ≤ (200000 : Int)) :
    0 ≤ (calculateTokenBudgets defaultClaudeConfig pt).maxTokens ∧
    (calculateTokenBudgets defaultClaudeConfig pt).thinkingBudget <
      (calculateTokenBudgets defaultClaudeConfig pt).maxTokens ∧
    (calculateTokenBudgets defaultClaudeConfig pt).maxTokens ≤
      min (calculateTokenBudgets defaultClaudeConfig pt).availableTokens
        defaultClaudeConfig.betas_max_tokens := by
  refine ⟨?_, ?_, ?_⟩
  · simp only [maxTokens_eq, defaultClaudeConfig]
    split <;> omega
  · simp only [thinkingBudget_eq, maxTokens_eq, defaultClaudeConfig]
    split <;> split <;> omega
  · simp only [maxTokens_eq, availableTokens_eq, defaultClaudeConfig]
    split <;> omega

/-- Witness for C5 at the concrete prompt size 100000. -/
theorem c5_budget_invariants_witness :
    (100000 : Int) ≤ 200000 ∧
    (0 ≤ (calculateTokenBudgets defaultClaudeConfig 100000).maxTokens ∧
     (calculateTokenBudgets defaultClaudeConfig 100000).thinkingBudget <
       (calculateTokenBudgets defaultClaudeConfig 100000).maxTokens ∧
     (calculateTokenBudgets defaultClaudeConfig 100000).maxTokens ≤
       min (calculateTokenBudgets defaultClaudeConfig 100000).availableTokens
         defaultClaudeConfig.betas_max_tokens) :=
  ⟨by decide, c5_budget_invariants 100000 (by decide)⟩

/-- Claim C6, counterexample: at `prompt_tokens = 199000` (default
configuration) the desired visible output (8000) exceeds the computed
`maxTokens` (1000), and the returned thinking budget is `-7000` — negative,
not clamped to 0 as the claim states. -/
theorem c6_counterexample_negative_thinking_budget :
    (calculateTokenBudgets defaultClaudeConfig 199000).maxTokens = 1000 ∧
    (calculateTokenBudgets defaultClaudeConfig 199000).thinkingBudget = -7000 ∧
    (calculateTokenBudgets defaultClaudeConfig 199000).thinkingBudget < 0 := by
  decide

/-- Claim C6 (amended): whenever the computed `maxTokens` is smaller than the
desired visible output (8000, default configuration), the returned thinking
budget equals `maxTokens - 8000` and is negative — the calculator performs no
clamping of the reasoning budget at 0. -/
theorem c6_thinking_budget_goes_negative (pt : Int)
    (h : (calculateTokenBudgets defaultClaudeConfig pt).maxTokens < 8000) :
    (calculateTokenBudgets defaultClaudeConfig pt).thinkingBudget =
      (calculateTokenBudgets defaultClaudeConfig pt).maxTokens - 8000 ∧
    (calculateTokenBudgets defaultClaudeConfig pt).thinkingBudget < 0 := by
  rw [thinkingBudget_eq]
  simp only [defaultClaudeConfig] at h ⊢
  constructor
  · rw [if_neg]
    omega
  · split <;> omega

/-- Witness for C6 (amended) at the concrete prompt size 199000. -/
theorem c6_thinking_budget_goes_negative_witness :
    (calculateTokenBudgets defaultClaudeConfig 199000).maxTokens < 8000 ∧
    ((calculateTokenBudgets defaultClaudeConfig 199000).thinkingBudget =
       (calculateTokenBudgets defaultClaudeConfig 199000).maxTokens - 8000 ∧
     (calculateTokenBudgets defaultClaudeConfig 199000).thinkingBudget < 0) :=
  ⟨by decide, c6_thinking_budget_goes_negative 199000 (by decide)⟩

/-- Configuration matching the C7 scenario: context window 200000, provider
hard limit (`betas_max_tokens`) 32000, desired visible output 8000, preferred
reasoning budget (`thinking_budget_tokens`) 20000 with the cap
(`max_thinking_budget`) also 20000. -/
def scenarioClaudeConfig : ClaudeConfig :=
  { model_name := "claude-3-7-sonnet-20250219"
    context_window := 200000
    thinking_budget_tokens := 20000
    betas_max_tokens := 32000
    desired_output_tokens := 8000
    max_thinking_budget := 20000
    max_tokens := 32000 }

/-- Claim C7: on the scenario input `prompt_tokens = 190000` with context
window 200000, hard limit 32000, desired visible output 8000 and preferred
reasoning budget 20000, the calculator returns `availableTokens = 10000`,
`maxTokens = 10000`, `thinkingBudget = 2000` and `isPromptTooLarge = true`. -/
theorem c7_scenario_budget_values :
    (calculateTokenBudgets scenarioClaudeConfig 190000).availableTokens = 10000 ∧
    (calculateTokenBudgets scenarioClaudeConfig 190000).maxTokens = 10000 ∧
    (calculateTokenBudgets scenarioClaudeConfig 190000).thinkingBudget = 2000 ∧
    (calculateTokenBudgets scenarioClaudeConfig 190000).isPromptTooLarge = true := by
  decide

/-- The fields of the request object sent by `streamWithThinking`
(client-claude.js 188–199) that the claims are about. -/
structure ClaudeRequest where
  model : String
  max_tokens : Int
  budget_tokens : Int
  userContent : String
deriving Repr, DecidableEq

/-- The full prompt built by `streamWithThinking` (client-claude.js 166–170):
the manuscript is prepended only when it is set, non-empty (JavaScript
truthiness) and `noCache` is false. -/
def claudeFullPrompt (manuscriptContent : Option String) (noCache : Bool)
    (prompt : String) : String :=
  match manuscriptContent, noCache with
  | some m, false =>
      if m = "" then prompt
      else "=== MANUSCRIPT ===\n" ++ m ++ "\n=== END MANUSCRIPT ===\n\n" ++ prompt
  | _, _ => prompt

/-- Shallow embedding of the pre-stream phase of the Claude client's
`streamWithThinking` (client-claude.js 161–199): the missing-key check, the
budget computation from the prompt token count, and the request that is then
sent.  `promptTokens` stands for the value returned by `countTokens` on the
full prompt.  Note the request carries `cfg.max_tokens` and
`cfg.max_thinking_budget`, not the computed budgets (lines 190–191, 195–196 of
the source keep the budget-derived values commented out). -/
def claudeStreamPreflight (cfg : ClaudeConfig) (apiKeyMissing : Bool)
    (manuscriptContent : Option String) (noCache : Bool) (prompt : String)
    (promptTokens : Int) : Except String (TokenBudgets × ClaudeRequest) :=
  if apiKeyMissing then
    .error "Claude API client not initialized - API key missing"
  else
    .ok (calculateTokenBudgets cfg promptTokens,
      { model := cfg.model_name
        max_tokens := cfg.max_tokens
        budget_tokens := cfg.max_thinking_budget
        userContent := claudeFullPrompt manuscriptContent noCache prompt })

/-- `true` iff an `Except` value is a success. -/
def exceptIsOk {ε α : Type} : Except ε α → Bool
  | .ok _ => true
  | .error _ => false

/-- Claim C1, counterexample: at prompt token count 190000 (default
configuration) the Claude client sends `max_tokens = 32000` and
`budget_tokens = 20000`, while the Token Budget Calculator computes the
admissible pair `maxTokens = 10000`, `thinkingBudget = 2000`; the sent values
are not the computed pair (and 190000 + 32000 exceeds the 200000 context
window). -/
theorem c1_counterexample_sent_values_differ :
    (claudeStreamPreflight defaultClaudeConfig false none false "p" 190000).map
        (fun pr => (pr.2.max_tokens, pr.2.budget_tokens)) = .ok (32000, 20000) ∧
    (calculateTokenBudgets defaultClaudeConfig 190000).maxTokens = 10000 ∧
    (calculateTokenBudgets defaultClaudeConfig 190000).thinkingBudget = 2000 ∧
    (190000 : Int) + 32000 > defaultClaudeConfig.context_window := by
  decide

/-- Claim C1 (amended): before every stream call the Claude client does
compute the token budgets from the call's prompt token count (they drive the
log lines and the oversize warning), but the request sent to the provider
always carries the fixed configured `max_tokens` and `max_thinking_budget`,
not the computed pair. -/
theorem c1_request_uses_fixed_config_limits (cfg : ClaudeConfig)
    (manuscriptContent : Option String) (noCache : Bool) (prompt : String)
    (promptTokens : Int) (b : TokenBudgets) (r : ClaudeRequest)
    (h : claudeStreamPreflight cfg false manuscriptContent noCache prompt promptTokens =
      .ok (b, r)) :
    b = calculateTokenBudgets cfg promptTokens ∧
    r.max_tokens = cfg.max_tokens ∧
    r.budget_tokens = cfg.max_thinking_budget := by
  simp only [claudeStreamPreflight, if_neg Bool.false_ne_true, Except.ok.injEq,
    Prod.mk.injEq] at h
  obtain ⟨hb, hr⟩ := h
  subst hb
  subst hr
  exact ⟨rfl, rfl, rfl⟩

/-- Witness for C1 (amended) at a concrete call. -/
theorem c1_request_uses_fixed_config_limits_witness :
    (calculateTokenBudgets defaultClaudeConfig 190000 =
        calculateTokenBudgets defaultClaudeConfig 190000 ∧
      ClaudeRequest.max_tokens
          { model := "claude-3-7-sonnet-20250219", max_tokens := 32000,
            budget_tokens := 20000, userContent := "p" } =
        defaultClaudeConfig.max_tokens ∧
      ClaudeRequest.budget_tokens
          { model := "claude-3-7-sonnet-20250219", max_tokens := 32000,
            budget_tokens := 20000, userContent := "p" } =
        defaultClaudeConfig.max_thinking_budget) :=
  c1_request_uses_fixed_config_limits defaultClaudeConfig none false "p" 190000
    (calculateTokenBudgets defaultClaudeConfig 190000)
    { model := "claude-3-7-sonnet-20250219", max_tokens := 32000,
      budget_tokens := 20000, userContent := "p" } (by decide)

/-- Shallow embedding of the pre-stream phase of the OpenAI client's
`streamWithThinking` (client-openai.js 124–141): missing-key check, the
manuscript-not-loaded check (JavaScript truthiness: `null` and the empty
string both fail it), and the full input that is then sent. -/
def openaiStreamPreflight (apiKeyMissing : Bool) (manuscript : Option String)
    (prompt : String) : Except String String :=
  if apiKeyMissing then
    .error "OpenAI client not initialized - missing API key"
  else
    match manuscript with
    | none => .error "No manuscript prompt loaded. Call prepareFileAndCache() first."
    | some m =>
        if m = "" then
          .error "No manuscript prompt loaded. Call prepareFileAndCache() first."
        else
          .ok ("=== MANUSCRIPT ===\n" ++ m ++ "\n=== MANUSCRIPT ===\n" ++ prompt)

/-- Claim C4, counterexample: the Claude client, with an API key present but
no manuscript prepared, does not fail — `streamWithThinking` proceeds to open
the stream with the bare instruction as user content.  There is no
context-not-prepared error in the Claude client. -/
theorem c4_counterexample_claude_no_context_check :
    exceptIsOk (claudeStreamPreflight defaultClaudeConfig false none false "instr" 100) =
      true ∧
    (claudeStreamPreflight defaultClaudeConfig false none false "instr" 100).map
        (fun pr => pr.2.userContent) = .ok "instr" := by
  decide

/-- Claim C4 (amended): both clients fail fast with a distinguishable
missing-key error before any stream is opened; the OpenAI client additionally
fails fast with a distinguishable context-not-prepared error when no
manuscript is loaded, while the Claude client performs no such check and
proceeds with the bare instruction. -/
theorem c4_fail_fast_partial :
    (∀ (cfg : ClaudeConfig) (mc : Option String) (nc : Bool) (p : String) (pt : Int),
      claudeStreamPreflight cfg true mc nc p pt =
        .error "Claude API client not initialized - API key missing") ∧
    (∀ (m : Option String) (p : String),
      openaiStreamPreflight true m p =
        .error "OpenAI client not initialized - missing API key") ∧
    (∀ (p : String),
      openaiStreamPreflight false none p =
        .error "No manuscript prompt loaded. Call prepareFileAndCache() first.") ∧
    (∀ (cfg : ClaudeConfig) (nc : Bool) (p : String) (pt : Int),
      exceptIsOk (claudeStreamPreflight cfg false none nc p pt) = true) := by
  refine ⟨fun cfg mc nc p pt => rfl, fun m p => rfl, fun p => rfl, fun cfg nc p pt => rfl⟩

/-- The IPC channels the main process registers handlers for, in registration
order (`ipcMain.handle` / `ipcMain.on` calls in main.js). -/
def mainRegisteredChannels : List String :=
  ["set-api-provider", "get-projects", "open-project", "create-project",
   "open-file-in-editor", "save-file", "get-tools", "get-tool-options",
   "show-tool-setup-dialog", "close-tool-dialog", "get-current-tool",
   "start-tool-run", "set-tool-options", "close-editor-dialog", "app-quit",
   "show-settings-dialog", "get-current-settings", "getAvailableModels",
   "save-settings", "cancel-settings", "cancel-provider-selection",
   "show-project-dialog", "show-editor-dialog", "close-editor-dialog",
   "launch-editor", "get-project-info", "select-file", "select-directory",
   "close-project-dialog", "convert-docx-to-txt", "convert-txt-to-docx",
   "get-tool-output-files", "get-ai-model-info"]

/-- Electron `ipcRenderer.invoke` semantics: the invocation resolves only if a
handler is registered for the channel; otherwise the promise rejects. -/
def ipcInvoke (registered : List String) (channel : String) : Except String Unit :=
  if channel ∈ registered then .ok ()
  else .error ("No handler registered for the channel " ++ channel)

/-- Claim C2: the preload bridge's `stopTool` invokes the IPC channel
`stop-tool` (preload.js 225), but the main process registers no handler for
that channel, so the invocation rejects and nothing ever signals the
`start-tool-run` stream loop — no run can reach a cancelled state. -/
theorem c2_stop_tool_has_no_handler :
    "stop-tool" ∉ mainRegisteredChannels ∧
    ipcInvoke mainRegisteredChannels "stop-tool" =
      .error ("No handler registered for the channel " ++ "stop-tool") := by
  decide

/-- The events the `start-tool-run` handler sends to the tool window
(main.js 1212–1263): `tool-output`, `tool-finished` and `tool-error`, each
carrying the run id. -/
inductive ToolEvent where
  | output (runId : String) (text : String)
  | finished (runId : String) (code : Int) (createdFiles : List String)
  | error (runId : String) (message : String)
deriving Repr, DecidableEq

/-- `true` for the terminal events `tool-finished` and `tool-error`. -/
def isTerminal : ToolEvent → Bool
  | .finished _ _ _ => true
  | .error _ _ => true
  | .output _ _ => false

/-- Modelled from the spec: the Artifact Cache (`file-cache.js` is required
by main.js but is not among the provided sources).  Spec §4.4: it maps a tool
id to the recorded artifact paths, `listArtifacts` returns them in insertion
order without duplicates, and `clear(tool_id)` removes a tool's entries. -/
structure FileCache where
  entries : List (String × String)
deriving Repr, DecidableEq

/-- Modelled from the spec: `recordArtifact(tool_id, run_id, path)` appends
an entry unless the same (tool, path) pair is already recorded, so that
`listArtifacts` stays duplicate-free in insertion order. -/
def recordArtifact (c : FileCache) (tool p : String) : FileCache :=
  if (tool, p) ∈ c.entries then c else ⟨c.entries ++ [(tool, p)]⟩

/-- Modelled from the spec: `listArtifacts(tool_id)`, the paths recorded for
the tool in insertion order (main.js consumes it as
`fileCache.getFiles(toolName)` and reads each entry's `.path`). -/
def listArtifacts (c : FileCache) (tool : String) : List String :=
  (c.entries.filter (fun e => e.1 == tool)).map (fun e => e.2)

/-- Modelled from the spec: `clear(tool_id)` (main.js calls
`fileCache.clear(toolName)` before executing the tool). -/
def clearTool (c : FileCache) (tool : String) : FileCache :=
  ⟨c.entries.filter (fun e => !(e.1 == tool))⟩

/-- Record a list of paths for a tool, in order. -/
def recordAll (c : FileCache) (tool : String) (ps : List String) : FileCache :=
  ps.foldl (fun acc p => recordArtifact acc tool p) c

/-- One step of JavaScript `Set` insertion order: append unless present. -/
def insertSetLike (seen : List String) (x : String) : List String :=
  if x ∈ seen then seen else seen ++ [x]

/-- `[...new Set(l)]` — first-occurrence deduplication, as used for
`allFiles` in main.js 1243–1246. -/
def jsSetDedup (l : List String) : List String := l.foldl insertSetLike []

/-- Abstraction of one tool execution inside the `start-tool-run` handler:
the texts it emits through `sendOutput`, the artifact paths it records in the
file cache while running, and its result — either the thrown error message or
the `outputFiles` list of its return value (`result.outputFiles || []`). -/
structure ToolRunBehavior where
  outputs : List String
  recorded : List String
  result : Except String (List String)
deriving Repr, DecidableEq

/-- `sendOutput` / `webContents.send`: an event is delivered only while the
tool window is alive (main.js 1212–1219, 1249, 1258). -/
def sendIf (alive : Bool) (e : ToolEvent) : List ToolEvent :=
  if alive then [e] else []

/-- The first notification sent by the handler (main.js 1225). -/
def startMessage (toolName : String) : String :=
  "Starting " ++ toolName ++ "...\n\n"

/-- Shallow embedding of the `start-tool-run` IPC handler (main.js
1206–1272).  It allocates a run id and returns it; the background task sends
the starting notification, looks the tool up (failure: `tool-error`
"Tool not found"), clears the tool's artifact cache, executes the tool, and
then sends either `tool-finished` with the deduplicated union of the tool's
returned files and the cached files, or `tool-error` with the thrown message.
The returned triple is (run id handed back to the caller, events delivered to
the window, cache state after the run). -/
def startToolRun (runId toolName : String) (alive : Bool) (cache : FileCache)
    (tool : Option ToolRunBehavior) : String × List ToolEvent × FileCache :=
  match tool with
  | none =>
      (runId,
       sendIf alive (.output runId (startMessage toolName)) ++
         sendIf alive (.error runId ("Tool not found: " ++ toolName)),
       cache)
  | some b =>
      let cache2 := recordAll (clearTool cache toolName) toolName b.recorded
      match b.result with
      | .error msg =>
          (runId,
           sendIf alive (.output runId (startMessage toolName)) ++
             ((if alive then b.outputs.map (fun t => ToolEvent.output runId t) else []) ++
               sendIf alive (.error runId msg)),
           cache2)
      | .ok outputFiles =>
          (runId,
           sendIf alive (.output runId (startMessage toolName)) ++
             ((if alive then b.outputs.map (fun t => ToolEvent.output runId t) else []) ++
               sendIf alive (.finished runId 0
                 (jsSetDedup (outputFiles ++ listArtifacts cache2 toolName)))),
           cache2)

theorem mem_insertSetLike (acc : List String) (x y : String) :
    y ∈ insertSetLike acc x ↔ y ∈ acc ∨ y = x := by
  unfold insertSetLike
  split
  · constructor
    · exact fun h => Or.inl h
    · rintro (h | h)
      · exact h
      · subst h; assumption
  · simp

theorem mem_foldl_insertSetLike (l : List String) (acc : List String) (y : String) :
    y ∈ l.foldl insertSetLike acc ↔ y ∈ acc ∨ y ∈ l := by
  induction l generalizing acc with
  | nil => simp
  | cons x xs ih =>
      simp only [List.foldl_cons, ih, mem_insertSetLike, List.mem_cons]
      tauto

theorem nodup_foldl_insertSetLike (l : List String) (acc : List String)
    (h : acc.Nodup) : (l.foldl insertSetLike acc).Nodup := by
  induction l generalizing acc with
  | nil => exact h
  | cons x xs ih =>
      apply ih
      unfold insertSetLike
      split
      · exact h
      · simp [List.nodup_append, h, *]

theorem mem_jsSetDedup (l : List String) (y : String) :
    y ∈ jsSetDedup l ↔ y ∈ l := by
  unfold jsSetDedup
  rw [mem_foldl_insertSetLike]
  simp

theorem nodup_jsSetDedup (l : List String) : (jsSetDedup l).Nodup :=
  nodup_foldl_insertSetLike l [] List.nodup_nil

theorem mem_entries_iff_mem_listArtifacts (c : FileCache) (t p : String) :
    (t, p) ∈ c.entries ↔ p ∈ listArtifacts c t := by
  unfold listArtifacts
  simp only [List.mem_map, List.mem_filter, beq_iff_eq]
  constructor
  · intro h
    exact ⟨(t, p), ⟨h, rfl⟩, rfl⟩
  · rintro ⟨⟨a, b⟩, ⟨hm, h1⟩, h2⟩
    simp only at h1 h2
    subst h1; subst h2
    exact hm

theorem listArtifacts_recordArtifact (c : FileCache) (t p : String) :
    listArtifacts (recordArtifact c t p) t = insertSetLike (listArtifacts c t) p := by
  unfold recordArtifact insertSetLike
  by_cases h : (t, p) ∈ c.entries
  · rw [if_pos h, if_pos ((mem_entries_iff_mem_listArtifacts c t p).mp h)]
  · rw [if_neg h, if_neg (fun hc => h ((mem_entries_iff_mem_listArtifacts c t p).mpr hc))]
    unfold listArtifacts
    simp

theorem listArtifacts_clearTool (c : FileCache) (t : String) :
    listArtifacts (clearTool c t) t = [] := by
  unfold listArtifacts clearTool
  simp only [List.filter_filter]
  have : ∀ e : String × String, ((e.1 == t) && !(e.1 == t)) = false := by
    intro e
    cases h : e.1 == t <;> simp [h]
  rw [List.filter_congr (fun e _ => this e)]
  simp

theorem listArtifacts_recordAll (ps : List String) (c : FileCache) (t : String) :
    listArtifacts (recordAll c t ps) t = ps.foldl insertSetLike (listArtifacts c t) := by
  induction ps generalizing c with
  | nil => rfl
  | cons p ps ih =>
      unfold recordAll at *
      simp only [List.foldl_cons]
      rw [ih, listArtifacts_recordArtifact]

/-- The artifact paths listed for a tool after a fresh run: the cache is
cleared for that tool, then the run's recorded paths are inserted in order —
the result is the first-occurrence deduplication of the run's own paths,
independent of the prior cache contents. -/
theorem listArtifacts_after_run (cache : FileCache) (t : String) (ps : List String) :
    listArtifacts (recordAll (clearTool cache t) t ps) t = jsSetDedup ps := by
  rw [listArtifacts_recordAll, listArtifacts_clearTool]
  rfl

theorem startToolRun_none_events (runId toolName : String) (cache : FileCache) :
    (startToolRun runId toolName true cache none).2.1 =
      [.output runId (startMessage toolName),
       .error runId ("Tool not found: " ++ toolName)] := by
  simp [startToolRun, sendIf]

theorem startToolRun_error_events (runId toolName : String) (cache : FileCache)
    (b : ToolRunBehavior) (msg : String) (h : b.result = .error msg) :
    (startToolRun runId toolName true cache (some b)).2.1 =
      ToolEvent.output runId (startMessage toolName) ::
        (b.outputs.map (fun t => ToolEvent.output runId t) ++ [.error runId msg]) := by
  simp [startToolRun, sendIf, h]

theorem startToolRun_ok_events (runId toolName : String) (cache : FileCache)
    (b : ToolRunBehavior) (files : List String) (h : b.result = .ok files) :
    (startToolRun runId toolName true cache (some b)).2.1 =
      ToolEvent.output runId (startMessage toolName) ::
        (b.outputs.map (fun t => ToolEvent.output runId t) ++
          [.finished runId 0 (jsSetDedup (files ++ jsSetDedup b.recorded))]) := by
  simp [startToolRun, sendIf, h, listArtifacts_after_run]

/-- Claim C8: `start-tool-run` hands the freshly generated run id back to the
caller for every tool and every tool behavior — the handler itself never
throws, because the whole background task is wrapped in a catch — and any
failure during the run (tool missing, or the tool throwing) is delivered to
the window as a final `tool-error` event carrying that run id, so the run is
observed as errored, never as an exception. -/
theorem c8_startRun_never_throws (runId toolName : String) (cache : FileCache)
    (tool : Option ToolRunBehavior) :
    (startToolRun runId toolName true cache tool).1 = runId ∧
    (tool = none →
      (startToolRun runId toolName true cache tool).2.1.getLast? =
        some (.error runId ("Tool not found: " ++ toolName))) ∧
    (∀ b msg, tool = some b → b.result = .error msg →
      (startToolRun runId toolName true cache tool).2.1.getLast? =
        some (.error runId msg)) := by
  refine ⟨?_, ?_, ?_⟩
  · cases tool with
    | none => rfl
    | some b => cases hb : b.result <;> simp [startToolRun, hb]
  · rintro rfl
    rw [startToolRun_none_events]
    rfl
  · rintro b msg rfl hmsg
    rw [startToolRun_error_events runId toolName cache b msg hmsg,
      ← List.cons_append, List.getLast?_concat]

/-- A concrete tool behavior that throws. -/
def sampleFailTool : ToolRunBehavior :=
  { outputs := ["chunk"], recorded := [], result := .error "boom" }

/-- Witness for C8 on a concrete erroring run. -/
theorem c8_startRun_never_throws_witness :
    (startToolRun "r1" "tokens_words_counter" true ⟨[]⟩ (some sampleFailTool)).1 = "r1" ∧
    (startToolRun "r1" "tokens_words_counter" true ⟨[]⟩
        (some sampleFailTool)).2.1.getLast? = some (.error "r1" "boom") :=
  ⟨(c8_startRun_never_throws "r1" "tokens_words_counter" ⟨[]⟩ (some sampleFailTool)).1,
   (c8_startRun_never_throws "r1" "tokens_words_counter" ⟨[]⟩
      (some sampleFailTool)).2.2 sampleFailTool "boom" rfl rfl⟩

/-- Claim C9: for every run (with the tool window alive), the delivered event
sequence starts with the run-started notification (the first `tool-output`,
"Starting …"), every event before the last one is a non-terminal output, and
the last event is terminal — hence text deltas are preceded by the start
notification and followed by exactly one terminal event, never two. -/
theorem c9_event_ordering (runId toolName : String) (cache : FileCache)
    (tool : Option ToolRunBehavior) :
    (startToolRun runId toolName true cache tool).2.1.head? =
      some (.output runId (startMessage toolName)) ∧
    (startToolRun runId toolName true cache tool).2.1.dropLast.all
      (fun e => !(isTerminal e)) = true ∧
    ((startToolRun runId toolName true cache tool).2.1.getLast?).map isTerminal =
      some true := by
  cases tool with
  | none =>
      rw [startToolRun_none_events]
      exact ⟨rfl, by simp [isTerminal], rfl⟩
  | some b =>
      cases hb : b.result with
      | error msg =>
          rw [startToolRun_error_events runId toolName cache b msg hb]
          refine ⟨rfl, ?_, ?_⟩
          · rw [← List.cons_append, List.dropLast_concat]
            simp [List.all_eq_true, isTerminal]
          · rw [← List.cons_append, List.getLast?_concat]
            rfl
      | ok files =>
          rw [startToolRun_ok_events runId toolName cache b files hb]
          refine ⟨rfl, ?_, ?_⟩
          · rw [← List.cons_append, List.dropLast_concat]
            simp [List.all_eq_true, isTerminal]
          · rw [← List.cons_append, List.getLast?_concat]
            rfl

/-- The file list reported by a successful run: the deduplicated union of the
files the tool returned and the artifacts it recorded during this run —
independent of whatever was cached before the run. -/
def runReportedFiles (b : ToolRunBehavior) (files : List String) : List String :=
  jsSetDedup (files ++ jsSetDedup b.recorded)

/-- Claim C10: the artifact cache for the tool is cleared at the start of the
run, so a successful run finishes with a `tool-finished` event whose file
list is the duplicate-free union of the tool's returned paths and the
artifacts recorded during this run; the delivered events are identical for
any prior cache contents — artifacts never accumulate across successive runs
of the same tool. -/
theorem c10_artifacts_no_cross_run (runId toolName : String)
    (cache cache' : FileCache) (b : ToolRunBehavior) (files : List String)
    (h : b.result = .ok files) :
    (startToolRun runId toolName true cache (some b)).2.1.getLast? =
      some (.finished runId 0 (runReportedFiles b files)) ∧
    (startToolRun runId toolName true cache (some b)).2.1 =
      (startToolRun runId toolName true cache' (some b)).2.1 ∧
    (runReportedFiles b files).Nodup ∧
    (∀ p, p ∈ runReportedFiles b files ↔ p ∈ files ∨ p ∈ b.recorded) := by
  refine ⟨?_, ?_, ?_, ?_⟩
  · rw [startToolRun_ok_events runId toolName cache b files h, ← List.cons_append,
      List.getLast?_concat]
    rfl
  · rw [startToolRun_ok_events runId toolName cache b files h,
      startToolRun_ok_events runId toolName cache' b files h]
  · exact nodup_jsSetDedup _
  · intro p
    unfold runReportedFiles
    rw [mem_jsSetDedup, List.mem_append, mem_jsSetDedup]

/-- A concrete successful tool behavior with duplicated paths. -/
def sampleOkTool : ToolRunBehavior :=
  { outputs := ["chunk"], recorded := ["f2", "f1"], result := .ok ["f1", "f1"] }

/-- Witness for C10 on a concrete successful run over a non-empty prior
cache. -/
theorem c10_artifacts_no_cross_run_witness :
    (startToolRun "r2" "proofreader_spelling" true ⟨[("other_tool", "old.txt")]⟩
        (some sampleOkTool)).2.1.getLast? =
      some (.finished "r2" 0 (runReportedFiles sampleOkTool ["f1", "f1"])) ∧
    (runReportedFiles sampleOkTool ["f1", "f1"]).Nodup :=
  ⟨(c10_artifacts_no_cross_run "r2" "proofreader_spelling"
      ⟨[("other_tool", "old.txt")]⟩ ⟨[]⟩ sampleOkTool ["f1", "f1"] rfl).1,
   (c10_artifacts_no_cross_run "r2" "proofreader_spelling"
      ⟨[("other_tool", "old.txt")]⟩ ⟨[]⟩ sampleOkTool ["f1", "f1"] rfl).2.2.1⟩

end StoryGrinder
